import Mathlib

/-!
Verification development for the MCP-Builder repository: a shallow embedding
of its data model and core operations (ingestion walker, signal extraction,
reasoning engines, GitHub enrichment, document generation and YAML
persistence), with theorems settling the specification claims.

Modelling conventions:
* Python strings are Lean `String`s; slicing and `len` count code points,
  matching `String.take` / `String.length`.
* Python `float` arithmetic is modelled over `ℚ`; the literals involved
  (1.0, 0.5, 0.3, percentages) are treated exactly.
* Python datetimes are modelled as integer timestamps (seconds); a
  `timedelta.days` is the floored quotient by 86400 (`Int.fdiv`).
* External libraries (the git backend, an LLM HTTP backend, a JSON parser)
  are modelled as explicit oracle parameters describing their outcome.
-/

/-- `ProjectType` enum from `mcp_builder/mcp/schemas.py`. -/
inductive ProjectType where
  | cli
  | api
  | web_app
  | ml
  | automation
  | library
  | other
deriving DecidableEq

/-- The `.value` string of a `ProjectType` member (it is a `str` enum). -/
def ProjectType.value : ProjectType → String
  | .cli => "cli"
  | .api => "api"
  | .web_app => "web_app"
  | .ml => "ml"
  | .automation => "automation"
  | .library => "library"
  | .other => "other"

/-- Pydantic validation of a string into `ProjectType` (enum lookup by value). -/
def ProjectType.ofValue (s : String) : Option ProjectType :=
  if s = "cli" then some .cli
  else if s = "api" then some .api
  else if s = "web_app" then some .web_app
  else if s = "ml" then some .ml
  else if s = "automation" then some .automation
  else if s = "library" then some .library
  else if s = "other" then some .other
  else none

/-- `ProjectStatus` enum from `mcp_builder/mcp/schemas.py`. -/
inductive ProjectStatus where
  | prototype
  | mvp
  | production
deriving DecidableEq

/-- The `.value` string of a `ProjectStatus` member. -/
def ProjectStatus.value : ProjectStatus → String
  | .prototype => "prototype"
  | .mvp => "mvp"
  | .production => "production"

/-- Pydantic validation of a string into `ProjectStatus`. -/
def ProjectStatus.ofValue (s : String) : Option ProjectStatus :=
  if s = "prototype" then some .prototype
  else if s = "mvp" then some .mvp
  else if s = "production" then some .production
  else none

/-- Rank of a maturity tier in the order prototype < mvp < production. -/
def ProjectStatus.rank : ProjectStatus → Nat
  | .prototype => 0
  | .mvp => 1
  | .production => 2

/-- `Insights` dataclass from `mcp_builder/intelligence/models.py`. -/
structure Insights where
  problem : String
  solution : String
  value_proposition : String
  target_users : String
  key_features : List String
  current_focus : String
  future_plans : String
deriving DecidableEq

/-- `TechnicalSignals` dataclass from `mcp_builder/analyzers/models.py`. -/
structure TechnicalSignals where
  languages : List String
  frameworks : List String
  project_type : ProjectType
  maturity : ProjectStatus
  activity_level : String
  tech_stack : List String
deriving DecidableEq

/-- `GitHubRepository` dataclass from `mcp_builder/github/models.py`
(datetimes as integer timestamps). -/
structure GitHubRepository where
  name : String
  full_name : String
  description : Option String
  stars : Nat
  forks : Nat
  open_issues : Nat
  language : Option String
  topics : List String
  created_at : Int
  updated_at : Int
  pushed_at : Int
  size : Nat
  default_branch : String
  license : Option String
  has_wiki : Bool
  has_pages : Bool
  has_projects : Bool
  archived : Bool
  disabled : Bool
deriving DecidableEq

/-- `GitHubContributor` dataclass from `mcp_builder/github/models.py`. -/
structure GitHubContributor where
  login : String
  contributions : Nat
  type : String
deriving DecidableEq

/-- `GitHubLanguageStats` dataclass from `mcp_builder/github/models.py`:
the `languages` dict is modelled as an association list in insertion
order (keys unique), `total_bytes` is the separate stored field. -/
structure GitHubLanguageStats where
  languages : List (String × Nat)
  total_bytes : Nat
deriving DecidableEq

/-- `GitHubMetrics` dataclass from `mcp_builder/github/models.py`. -/
structure GitHubMetrics where
  repository : GitHubRepository
  contributors : List GitHubContributor
  language_stats : GitHubLanguageStats
  clone_url : String
  ssh_url : String
deriving DecidableEq

/-- `GitHubMetrics.popularity_score`:
`stars * 1.0 + forks * 0.5 + len(contributors) * 0.3`, over `ℚ`. -/
def GitHubMetrics.popularity_score (m : GitHubMetrics) : ℚ :=
  (m.repository.stars : ℚ) * 1 + (m.repository.forks : ℚ) * (1 / 2) +
    (m.contributors.length : ℚ) * (3 / 10)

/-- Index of the first occurrence of `pat` in the character list, if any
(Python `str.find` on code points). -/
def findSubAux (pat : List Char) : List Char → Nat → Option Nat
  | [], i => if pat.isEmpty then some i else none
  | c :: rest, i =>
    if pat.isPrefixOf (c :: rest) then some i else findSubAux pat rest (i + 1)

/-- Python `s.find(pat)`, as an `Option` (Python returns -1 when absent). -/
def strFind (s pat : String) : Option Nat :=
  findSubAux pat.data s.data 0

/-- Python `s.find(pat, start)`. -/
def strFindFrom (s pat : String) (start : Nat) : Option Nat :=
  (findSubAux pat.data (s.data.drop start) 0).map (· + start)

/-- Python slice `s[a:b]` for nonnegative bounds, on code points. -/
def pySlice (s : String) (a b : Nat) : String :=
  ⟨(s.data.drop a).take (b - a)⟩

/-- Python `s[:n]`. -/
def pyTake (s : String) (n : Nat) : String :=
  ⟨s.data.take n⟩

/-- Python `str.strip()` (modelled for ASCII whitespace). -/
def pyStrip (s : String) : String :=
  ⟨((s.data.dropWhile Char.isWhitespace).reverse.dropWhile Char.isWhitespace).reverse⟩

/-- Python `str.lower()` (modelled for ASCII, matching `Char.toLower`). -/
def strToLower (s : String) : String :=
  ⟨s.data.map Char.toLower⟩

/-- `generate_one_liner` from `mcp_builder/mcp/generator.py`:
`insights.value_proposition[:200] + "..." if len(...) > 200 else ...`. -/
def generate_one_liner (insights : Insights) : String :=
  if insights.value_proposition.length > 200 then
    pyTake insights.value_proposition 200 ++ "..."
  else
    insights.value_proposition

/-- The JSON-extraction step of `OpenAIReasoningEngine._parse_response`
(`mcp_builder/intelligence/openai_engine.py`): strips a fenced markdown
code block if present, else strips the whole response. A missing closing
fence reproduces Python's `find`-returns-`-1` slice `response[start:-1]`. -/
def extractJsonStr (response : String) : String :=
  if (strFind response "```json").isSome then
    let js := (strFind response "```json").getD 0 + 7
    match strFindFrom response "```" js with
    | some je => pyStrip (pySlice response js je)
    | none => pyStrip (pySlice response js (response.length - 1))
  else if (strFind response "```").isSome then
    let js := (strFind response "```").getD 0 + 3
    match strFindFrom response "```" js with
    | some je => pyStrip (pySlice response js je)
    | none => pyStrip (pySlice response js (response.length - 1))
  else
    pyStrip response

/-- The fields `OpenAIReasoningEngine._parse_response` reads out of the
decoded JSON object via `data.get(key, default)`: `none` models an absent
key. -/
structure ParsedInsightData where
  problem : Option String
  solution : Option String
  value_proposition : Option String
  target_users : Option String
  key_features : Option (List String)
  current_focus : Option String
  future_plans : Option String
deriving DecidableEq

/-- The `Insights` built from decoded JSON data, with the per-field
defaults of `OpenAIReasoningEngine._parse_response`. -/
def insightsFromParsed (d : ParsedInsightData) : Insights where
  problem := d.problem.getD "Project addresses domain-specific challenges."
  solution := d.solution.getD "Implements comprehensive solution using modern practices."
  value_proposition := d.value_proposition.getD "Provides efficiency and reliability benefits."
  target_users := d.target_users.getD "Developers and technical professionals."
  key_features := d.key_features.getD ["Modern architecture", "Easy to use", "Well documented"]
  current_focus := d.current_focus.getD "Improving core functionality and user experience."
  future_plans := d.future_plans.getD "Expanding features and community adoption."

/-- `OpenAIReasoningEngine._fallback_insights`. -/
def OpenAIReasoningEngine.fallback_insights : Insights where
  problem := "This project addresses specific technical challenges in its domain."
  solution := "The project provides a comprehensive solution using modern development practices."
  value_proposition := "Offers improved efficiency, reliability, and user experience."
  target_users := "Developers, engineers, and technical professionals."
  key_features := ["Modern architecture and design",
    "Comprehensive functionality",
    "Developer-friendly interface",
    "Reliable performance"]
  current_focus := "Enhancing core features and improving documentation."
  future_plans := "Expanding capabilities and growing the user community."

/-- `OpenAIReasoningEngine._parse_response`, parameterised by the JSON
decoder (`json.loads`); a decode failure (`none`, covering
`JSONDecodeError` and non-object results) yields the fallback bundle. -/
def OpenAIReasoningEngine.parseResponseWith
    (jsonLoads : String → Option ParsedInsightData) (response : String) : Insights :=
  match jsonLoads (extractJsonStr response) with
  | some d => insightsFromParsed d
  | none => OpenAIReasoningEngine.fallback_insights

/-- `OpenAIReasoningEngine.reason`: the chat-completion call is an oracle
returning either the response text or an exception (`Except.error`,
covering network errors and timeouts); any failure is caught and the
fallback bundle returned — no exception escapes. -/
def OpenAIReasoningEngine.reason
    (backend : TechnicalSignals → String → Except Unit String)
    (jsonLoads : String → Option ParsedInsightData)
    (signals : TechnicalSignals) (content : String) : Insights :=
  match backend signals content with
  | .error _ => OpenAIReasoningEngine.fallback_insights
  | .ok response => OpenAIReasoningEngine.parseResponseWith jsonLoads response

/-- `MockReasoningEngine.reason` from `mcp_builder/intelligence/mock.py`:
returns the predefined insights regardless of input. -/
def MockReasoningEngine.reason (signals : TechnicalSignals) (content : String) : Insights where
  problem := "This project addresses a significant challenge in its domain by providing innovative solutions to common pain points."
  solution := "The project implements a comprehensive approach using best practices and modern technologies to deliver reliable results."
  value_proposition := "Offers substantial benefits including improved efficiency, reduced complexity, and enhanced user experience."
  target_users := "Developers, engineers, and organizations looking to streamline their workflows and improve productivity."
  key_features := ["Modular architecture for easy customization",
    "Comprehensive documentation and examples",
    "Strong type safety and error handling",
    "Extensible plugin system",
    "High performance and scalability"]
  current_focus := "Enhancing core functionality, improving documentation, and gathering user feedback for future improvements."
  future_plans := "Expand platform support, add advanced features, and build a vibrant community ecosystem."

/-- Python `str.join` over a list of parts. -/
def joinSep (sep : String) : List String → String
  | [] => ""
  | [s] => s
  | s :: t :: rest => s ++ sep ++ joinSep sep (t :: rest)

/-- A `pathlib.Path`, modelled by its components (`Path.parts`). -/
structure PyPath where
  parts : List String
deriving DecidableEq

/-- `Path.name`: the final component. -/
def PyPath.name (p : PyPath) : String :=
  p.parts.getLastD ""

/-- `Path.suffix` of a file name, per pathlib: the substring from the last
dot on, unless the dot is leading or trailing. -/
def pathSuffix (name : String) : String :=
  match name.data.findIdx? (· = '.') with
  | none => ""
  | some _ =>
    match name.data.reverse.findIdx? (· = '.') with
    | none => ""
    | some rj =>
      let i := name.length - 1 - rj
      if 0 < i ∧ i < name.length - 1 then ⟨name.data.drop i⟩ else ""

/-- `Path.suffix`. -/
def PyPath.suffix (p : PyPath) : String :=
  pathSuffix p.name

/-- `str(path)` for a relative POSIX path: components joined by `/`. -/
def PyPath.toStr (p : PyPath) : String :=
  joinSep "/" p.parts

/-- `IGNORE_DIRS` from `mcp_builder/ingestion/walker.py`. -/
def IGNORE_DIRS : List String :=
  [".git", "__pycache__", "node_modules", "venv", "env", ".venv", "build",
   "dist", ".pytest_cache", ".mypy_cache", ".tox", ".eggs", "*.egg-info"]

/-- `HIGH_PRIORITY_FILES` from `mcp_builder/ingestion/walker.py`. -/
def HIGH_PRIORITY_FILES : List String :=
  ["readme.md", "readme.txt", "readme.rst", "readme"]

/-- `CONFIG_FILES` from `mcp_builder/ingestion/walker.py`. -/
def CONFIG_FILES : List String :=
  ["requirements.txt", "pyproject.toml", "setup.py", "setup.cfg",
   "package.json", "tsconfig.json", "dockerfile", "docker-compose.yml",
   "makefile", ".gitignore", "license", "license.txt", "license.md"]

/-- The source-code extensions of `calculate_priority`. -/
def SOURCE_SUFFIXES : List String :=
  [".py", ".js", ".ts", ".java", ".cpp", ".c", ".h", ".go", ".rs"]

/-- The documentation extensions of `calculate_priority`. -/
def DOC_SUFFIXES : List String :=
  [".md", ".txt", ".rst"]

/-- `calculate_priority` from `mcp_builder/ingestion/walker.py`. -/
def calculate_priority (path : PyPath) : Nat :=
  let name := strToLower path.name
  if HIGH_PRIORITY_FILES.contains name then 10
  else if CONFIG_FILES.contains name then 8
  else if SOURCE_SUFFIXES.contains (strToLower path.suffix) then 5
  else if DOC_SUFFIXES.contains (strToLower path.suffix) then 7
  else 1

/-- `should_ignore_path`: any path component equal (exactly) to an entry
of `IGNORE_DIRS`. -/
def should_ignore_path (path : PyPath) : Bool :=
  path.parts.any (fun part => IGNORE_DIRS.contains part)

/-- `FileContent` dataclass from `mcp_builder/ingestion/models.py`. -/
structure FileContent where
  path : PyPath
  content : String
  priority : Nat
deriving DecidableEq

/-- A filesystem entry as enumerated by `root.rglob('*')`: its path, whether
it is a regular file, whether `read_text` succeeds, and the decoded text. -/
structure FsEntry where
  path : PyPath
  isFile : Bool
  readable : Bool
  content : String
deriving DecidableEq

/-- `collect_files` from `mcp_builder/ingestion/walker.py`, over the
`rglob` enumeration: keeps readable regular files outside ignored
directories, attaches `calculate_priority`, and stable-sorts by priority
descending (Python `list.sort` with `reverse=True` is stable). -/
def collect_files (entries : List FsEntry) : List FileContent :=
  let files := entries.filterMap (fun e =>
    if e.isFile && !(should_ignore_path e.path) then
      if e.readable then
        some ⟨e.path, e.content, calculate_priority e.path⟩
      else
        none
    else none)
  List.insertionSort (fun a b => b.priority ≤ a.priority) files

/-- `GitCommit` dataclass from `mcp_builder/ingestion/models.py`. -/
structure GitCommit where
  hash : String
  message : String
  author : String
  date : String
deriving DecidableEq

/-- Outcome of the git backend: `invalidRepo` models
`git.InvalidGitRepositoryError` (and its subclass `NoSuchPathError`);
`readError` models any other exception raised while reading the history
(e.g. `GitCommandError`). -/
inductive GitError where
  | invalidRepo
  | readError
deriving DecidableEq

/-- `get_recent_commits` from `mcp_builder/ingestion/walker.py`. The git
backend is an oracle: `.ok log` is the full commit history newest-first as
`iter_commits('HEAD')` yields it, and `max_count=limit` takes the first
`limit`. The `except` clause catches only `InvalidGitRepositoryError`
(returning `[]`); any other exception propagates. -/
def get_recent_commits (git : Except GitError (List GitCommit)) (limit : Nat) :
    Except GitError (List GitCommit) :=
  match git with
  | .ok log => .ok (log.take limit)
  | .error .invalidRepo => .ok []
  | .error .readError => .error .readError

/-- `RepositorySnapshot` dataclass from `mcp_builder/ingestion/models.py`. -/
structure RepositorySnapshot where
  root_path : PyPath
  files : List FileContent
  recent_commits : List GitCommit
  is_git_repo : Bool
  github_url : Option String
  is_github_clone : Bool
deriving DecidableEq

/-- `ingest_local_repository` from `mcp_builder/ingestion/walker.py`, after
the existence/directory checks (which precede and raise `ValueError`):
collects files, reads commits with limit 10, and sets
`is_git_repo = len(commits) > 0`. An uncaught git exception propagates. -/
def ingest_local_repository (root : PyPath) (entries : List FsEntry)
    (git : Except GitError (List GitCommit)) : Except GitError RepositorySnapshot :=
  match get_recent_commits git 10 with
  | .error e => .error e
  | .ok commits =>
    .ok ⟨root, collect_files entries, commits, decide (0 < commits.length), none, false⟩

/-- The selection loop of `select_content`
(`mcp_builder/intelligence/selector.py`): accumulate whole file contents
while they fit, else cut the next one to the remaining budget and stop. -/
def selectParts : List String → Nat → Nat → List String
  | [], _, _ => []
  | c :: rest, total, maxLen =>
    if total + c.length > maxLen then [pyTake c (maxLen - total)]
    else c :: selectParts rest (total + c.length) maxLen

/-- `select_content` from `mcp_builder/intelligence/selector.py`
(`max_length` defaults to 10000 at the call sites). -/
def select_content (snapshot : RepositorySnapshot) (max_length : Nat) : String :=
  joinSep "\n\n" (selectParts (snapshot.files.map (·.content)) 0 max_length)

/-- Python `pat in s` on strings. -/
def containsSubstr (s pat : String) : Bool :=
  (strFind s pat).isSome

/-- `'test' in str(f.path).lower()` over the file list
(`infer_maturity`, `mcp_builder/analyzers/signals.py`). -/
def has_tests (files : List FileContent) : Bool :=
  files.any (fun f => containsSubstr (strToLower f.path.toStr) "test")

/-- `'ci' in ... or '.github' in str(f.path).lower()` over the file list. -/
def has_ci (files : List FileContent) : Bool :=
  files.any (fun f =>
    containsSubstr (strToLower f.path.toStr) "ci" || containsSubstr (strToLower f.path.toStr) ".github")

/-- `'doc' in ... or 'readme' in str(f.path).lower()` over the file list. -/
def has_docs (files : List FileContent) : Bool :=
  files.any (fun f =>
    containsSubstr (strToLower f.path.toStr) "doc" || containsSubstr (strToLower f.path.toStr) "readme")

/-- `'version' in f.path.name.lower()` over the file list. -/
def has_version (files : List FileContent) : Bool :=
  files.any (fun f => containsSubstr (strToLower f.path.name) "version")

/-- The fixed tier rules of `infer_maturity`: production needs all four
booleans, mvp needs tests and docs, otherwise prototype. -/
def maturityRule (t c d v : Bool) : ProjectStatus :=
  if t && c && d && v then .production
  else if t && d then .mvp
  else .prototype

/-- `infer_maturity` from `mcp_builder/analyzers/signals.py` (the `commits`
argument is taken but unused, as in the source). -/
def infer_maturity (files : List FileContent) (commits : List GitCommit) : ProjectStatus :=
  maturityRule (has_tests files) (has_ci files) (has_docs files) (has_version files)

/-- `infer_activity_level` from `mcp_builder/analyzers/signals.py`.
`parseDate` is the `datetime.fromisoformat` oracle (`none` = `ValueError`),
producing a UTC timestamp in seconds; `now` is `datetime.now(timezone.utc)`.
`timedelta.days` is the floored quotient of the second difference by 86400. -/
def infer_activity_level (parseDate : String → Option Int) (now : Int) :
    List GitCommit → String
  | [] => "low"
  | c :: _ =>
    match parseDate c.date with
    | none => "unknown"
    | some t =>
      let days := (now - t).fdiv 86400
      if days < 30 then "high"
      else if days < 90 then "medium"
      else "low"

/-- The language share in percent used by
`GitHubEnricher.merge_language_data`: `(bytes / total) * 100` when
`total > 0`, else 0. -/
def languagePercentage (bytesCount total : Nat) : ℚ :=
  if 0 < total then (bytesCount : ℚ) / (total : ℚ) * 100 else 0

/-- `sorted(languages.items(), key=bytes, reverse=True)`: a stable sort by
byte count descending. -/
def sortedLangsDesc (langs : List (String × Nat)) : List (String × Nat) :=
  List.insertionSort (fun a b => b.2 ≤ a.2) langs

/-- The `github_languages` accumulated by
`GitHubEnricher.merge_language_data`: when the per-language byte dict is
non-empty, the languages whose share is at least 5 percent, scanned in
byte-count-descending order. -/
def github_languages (m : GitHubMetrics) : List String :=
  if m.language_stats.languages.isEmpty then []
  else
    ((sortedLangsDesc m.language_stats.languages).filter
      (fun p => 5 ≤ languagePercentage p.2 m.language_stats.total_bytes)).map Prod.fst

/-- `GitHubEnricher.merge_language_data` from
`mcp_builder/github/enricher.py`. -/
def merge_language_data (local_languages : List String) (m : GitHubMetrics) :
    List String :=
  let combined :=
    if (github_languages m).isEmpty then local_languages
    else github_languages m ++
      local_languages.filter (fun lang => !((github_languages m).contains lang))
  combined.take 10

/-- `Metadata` pydantic model from `mcp_builder/mcp/schemas.py`
(`generated_at` as an integer timestamp). -/
structure Metadata where
  version : String
  generated_at : Int
deriving DecidableEq

/-- `MCP` pydantic model from `mcp_builder/mcp/schemas.py`. -/
structure MCP where
  project_name : String
  one_liner : String
  problem : String
  solution : String
  value_proposition : String
  tech_stack : List String
  project_type : ProjectType
  status : ProjectStatus
  key_features : List String
  target_users : String
  current_focus : String
  future_plans : String
  risks_or_gaps : Option String
  metadata : Metadata
deriving DecidableEq

/-- A YAML document value. `yaml.dump` followed by `yaml.safe_load` is the
identity on these trees (PyYAML quotes ambiguous strings and round-trips
timestamps), so serialization is modelled at the value-tree level. -/
inductive Yaml where
  | null
  | str (s : String)
  | time (t : Int)
  | list (xs : List Yaml)
  | map (kvs : List (String × Yaml))

/-- `save_mcp` from `mcp_builder/mcp/generator.py`: `mcp.model_dump()` in
pydantic field order, with the two enum fields replaced by their `.value`
strings, written as a YAML mapping. -/
def save_mcp (m : MCP) : Yaml :=
  .map [
    ("project_name", .str m.project_name),
    ("one_liner", .str m.one_liner),
    ("problem", .str m.problem),
    ("solution", .str m.solution),
    ("value_proposition", .str m.value_proposition),
    ("tech_stack", .list (m.tech_stack.map Yaml.str)),
    ("project_type", .str m.project_type.value),
    ("status", .str m.status.value),
    ("key_features", .list (m.key_features.map Yaml.str)),
    ("target_users", .str m.target_users),
    ("current_focus", .str m.current_focus),
    ("future_plans", .str m.future_plans),
    ("risks_or_gaps", match m.risks_or_gaps with
      | none => .null
      | some s => .str s),
    ("metadata", .map [
      ("version", .str m.metadata.version),
      ("generated_at", .time m.metadata.generated_at)])]

/-- Pydantic validation of a `str` field: accepts exactly strings. -/
def yamlStr : Yaml → Option String
  | .str s => some s
  | _ => none

/-- Pydantic validation of a `List[str]` field. -/
def yamlStrList : Yaml → Option (List String)
  | .list xs => xs.mapM yamlStr
  | _ => none

/-- Pydantic validation of an `Optional[str]` field value. -/
def yamlOptStr : Yaml → Option (Option String)
  | .null => some none
  | .str s => some (some s)
  | _ => none

/-- Pydantic validation of a `datetime` field: a YAML timestamp scalar. -/
def yamlTime : Yaml → Option Int
  | .time t => some t
  | _ => none

/-- Validation of the nested `Metadata` model. `generated_at` is required
here: the absent-key case would invoke the current-time default factory,
and every saved document carries the field. -/
def loadMetadata : Yaml → Option Metadata
  | .map kvs => do
    let v ← (List.lookup "version" kvs).bind yamlStr
    let t ← (List.lookup "generated_at" kvs).bind yamlTime
    pure ⟨v, t⟩
  | _ => none

/-- `load_mcp` from `mcp_builder/mcp/generator.py`: `yaml.safe_load`
followed by `MCP(**data)` — each required field is looked up and validated
(missing or ill-typed values fail), `risks_or_gaps` defaults to `None`
when absent, enum fields are validated by value, extra keys are ignored. -/
def load_mcp : Yaml → Option MCP
  | .map kvs => do
    let project_name ← (List.lookup "project_name" kvs).bind yamlStr
    let one_liner ← (List.lookup "one_liner" kvs).bind yamlStr
    let problem ← (List.lookup "problem" kvs).bind yamlStr
    let solution ← (List.lookup "solution" kvs).bind yamlStr
    let value_proposition ← (List.lookup "value_proposition" kvs).bind yamlStr
    let tech_stack ← (List.lookup "tech_stack" kvs).bind yamlStrList
    let project_type ← ((List.lookup "project_type" kvs).bind yamlStr).bind ProjectType.ofValue
    let status ← ((List.lookup "status" kvs).bind yamlStr).bind ProjectStatus.ofValue
    let key_features ← (List.lookup "key_features" kvs).bind yamlStrList
    let target_users ← (List.lookup "target_users" kvs).bind yamlStr
    let current_focus ← (List.lookup "current_focus" kvs).bind yamlStr
    let future_plans ← (List.lookup "future_plans" kvs).bind yamlStr
    let risks_or_gaps ← match List.lookup "risks_or_gaps" kvs with
      | none => some none
      | some y => yamlOptStr y
    let metadata ← (List.lookup "metadata" kvs).bind loadMetadata
    pure ⟨project_name, one_liner, problem, solution, value_proposition,
      tech_stack, project_type, status, key_features, target_users,
      current_focus, future_plans, risks_or_gaps, metadata⟩
  | _ => none

theorem pyTake_length (s : String) (n : Nat) : (pyTake s n).length = min n s.length := by
  show (s.data.take n).length = min n s.data.length
  rw [List.length_take]

/-- C9: `generate_one_liner` returns the value proposition unchanged when it
is at most 200 characters long; when it is longer it returns the first 200
characters with the three-character ellipsis appended, a 203-character line. -/
theorem generate_one_liner_spec (insights : Insights) :
    (insights.value_proposition.length ≤ 200 →
      generate_one_liner insights = insights.value_proposition) ∧
    (200 < insights.value_proposition.length →
      generate_one_liner insights = pyTake insights.value_proposition 200 ++ "..." ∧
      (generate_one_liner insights).length = 203) := by
  constructor
  · intro h
    unfold generate_one_liner
    rw [if_neg (by omega)]
  · intro h
    have he : generate_one_liner insights = pyTake insights.value_proposition 200 ++ "..." := by
      unfold generate_one_liner
      rw [if_pos (by omega)]
    refine ⟨he, ?_⟩
    rw [he, String.length_append, pyTake_length]
    have h3 : ("..." : String).length = 3 := rfl
    rw [h3]
    omega

/-- A sample `Insights` whose value proposition is 250 characters long. -/
def longInsights : Insights :=
  ⟨"p", "s", String.mk (List.replicate 250 'a'), "t", [], "c", "f"⟩

/-- A sample `Insights` with a short value proposition. -/
def shortInsights : Insights :=
  ⟨"p", "s", "a tiny value proposition", "t", [], "c", "f"⟩

set_option maxRecDepth 4000 in
theorem generate_one_liner_spec_witness :
    generate_one_liner shortInsights = shortInsights.value_proposition ∧
    generate_one_liner longInsights =
      pyTake longInsights.value_proposition 200 ++ "..." :=
  ⟨(generate_one_liner_spec shortInsights).1 (by decide),
   ((generate_one_liner_spec longInsights).2 (by decide)).1⟩

/-- C7: `popularity_score` is stars × 1.0 + forks × 0.5 + contributor-count
× 0.3; at stars = 100, forks = 20 and 3 contributors it is exactly 110.9. -/
theorem popularity_score_spec (m : GitHubMetrics)
    (h1 : m.repository.stars = 100) (h2 : m.repository.forks = 20)
    (h3 : m.contributors.length = 3) :
    m.popularity_score = (m.repository.stars : ℚ) + (m.repository.forks : ℚ) / 2 +
      3 * (m.contributors.length : ℚ) / 10 ∧
    m.popularity_score = 1109 / 10 := by
  constructor
  · unfold GitHubMetrics.popularity_score
    ring
  · unfold GitHubMetrics.popularity_score
    rw [h1, h2, h3]
    norm_num

/-- A concrete `GitHubMetrics` with 100 stars, 20 forks, 3 contributors. -/
def sampleMetrics : GitHubMetrics where
  repository :=
    ⟨"r", "o/r", none, 100, 20, 0, none, [], 0, 0, 0, 0, "main", none,
      false, false, false, false, false⟩
  contributors := [⟨"a", 1, "User"⟩, ⟨"b", 1, "User"⟩, ⟨"c", 1, "User"⟩]
  language_stats := ⟨[], 0⟩
  clone_url := ""
  ssh_url := ""

theorem popularity_score_spec_witness :
    sampleMetrics.popularity_score = 1109 / 10 :=
  (popularity_score_spec sampleMetrics rfl rfl rfl).2

/-- C3: `infer_maturity` is monotonic in its four derived booleans: if each
boolean that holds of the first file list also holds of the second (in
particular when exactly one boolean turns from false to true), the inferred
tier cannot go down in the order prototype < mvp < production. -/
theorem infer_maturity_monotone (l1 l2 : List FileContent)
    (c1 c2 : List GitCommit)
    (ht : has_tests l1 = true → has_tests l2 = true)
    (hc : has_ci l1 = true → has_ci l2 = true)
    (hd : has_docs l1 = true → has_docs l2 = true)
    (hv : has_version l1 = true → has_version l2 = true) :
    (infer_maturity l1 c1).rank ≤ (infer_maturity l2 c2).rank := by
  have key : ∀ t1 u1 d1 v1 t2 u2 d2 v2 : Bool,
      (t1 = true → t2 = true) → (u1 = true → u2 = true) →
      (d1 = true → d2 = true) → (v1 = true → v2 = true) →
      (maturityRule t1 u1 d1 v1).rank ≤ (maturityRule t2 u2 d2 v2).rank := by
    decide
  exact key _ _ _ _ _ _ _ _ ht hc hd hv

/-- A file list containing only a README (docs boolean true, others false). -/
def docsOnlyFiles : List FileContent :=
  [⟨⟨["readme.md"]⟩, "# Hello", 10⟩]

/-- The same file list plus a file under `tests/` (tests boolean now true). -/
def docsAndTestsFiles : List FileContent :=
  [⟨⟨["readme.md"]⟩, "# Hello", 10⟩, ⟨⟨["tests", "main.py"]⟩, "x = 1", 5⟩]

theorem infer_maturity_monotone_witness :
    (infer_maturity docsOnlyFiles []).rank ≤ (infer_maturity docsAndTestsFiles []).rank :=
  infer_maturity_monotone docsOnlyFiles docsAndTestsFiles [] []
    (by decide) (by decide) (by decide) (by decide)

theorem fdiv_lt_iff {a b n : Int} (hb : 0 < b) : a.fdiv b < n ↔ a < n * b := by
  rw [Int.fdiv_eq_ediv _ (Int.le_of_lt hb)]
  exact Int.ediv_lt_iff_lt_mul hb

/-- C4: `infer_activity_level` returns "low" for no commits; for a newest
commit whose date does not parse it returns "unknown"; otherwise it buckets
the age of the newest commit: under 30 days "high" (a commit dated now is
"high"), at least 30 and under 90 days "medium", and at least 90 days "low"
(a commit dated 100 days ago is "low"). Ages are in seconds before `now`. -/
theorem infer_activity_level_spec (parseDate : String → Option Int) (now : Int) :
    infer_activity_level parseDate now [] = "low" ∧
    (∀ c cs, parseDate c.date = none →
      infer_activity_level parseDate now (c :: cs) = "unknown") ∧
    (∀ c cs t, parseDate c.date = some t → now - t < 30 * 86400 →
      infer_activity_level parseDate now (c :: cs) = "high") ∧
    (∀ c cs t, parseDate c.date = some t →
      30 * 86400 ≤ now - t → now - t < 90 * 86400 →
      infer_activity_level parseDate now (c :: cs) = "medium") ∧
    (∀ c cs t, parseDate c.date = some t → 90 * 86400 ≤ now - t →
      infer_activity_level parseDate now (c :: cs) = "low") := by
  refine ⟨rfl, ?_, ?_, ?_, ?_⟩
  · intro c cs h
    simp only [infer_activity_level]
    rw [h]
  · intro c cs t h hlt
    simp only [infer_activity_level]
    rw [h]
    simp only
    rw [if_pos ((fdiv_lt_iff (by norm_num)).mpr hlt)]
  · intro c cs t h h30 h90
    simp only [infer_activity_level]
    rw [h]
    simp only
    rw [if_neg (by
        rw [fdiv_lt_iff (by norm_num)]
        omega),
      if_pos ((fdiv_lt_iff (by norm_num)).mpr h90)]
  · intro c cs t h h90
    simp only [infer_activity_level]
    rw [h]
    simp only
    rw [if_neg (by
        rw [fdiv_lt_iff (by norm_num)]
        omega),
      if_neg (by
        rw [fdiv_lt_iff (by norm_num)]
        omega)]

/-- A date-parsing oracle for the witness: "today" is the instant `now`
below, "mid" is 50 days earlier, "old" is 100 days earlier, "bad" fails. -/
def sampleParseDate : String → Option Int :=
  fun s =>
    if s = "today" then some 8640000
    else if s = "mid" then some (8640000 - 50 * 86400)
    else if s = "old" then some 0
    else none

theorem infer_activity_level_spec_witness :
    infer_activity_level sampleParseDate 8640000 [] = "low" ∧
    infer_activity_level sampleParseDate 8640000 [⟨"h", "m", "a", "bad"⟩] = "unknown" ∧
    infer_activity_level sampleParseDate 8640000 [⟨"h", "m", "a", "today"⟩] = "high" ∧
    infer_activity_level sampleParseDate 8640000 [⟨"h", "m", "a", "mid"⟩] = "medium" ∧
    infer_activity_level sampleParseDate 8640000 [⟨"h", "m", "a", "old"⟩] = "low" :=
  ⟨(infer_activity_level_spec sampleParseDate 8640000).1,
   (infer_activity_level_spec sampleParseDate 8640000).2.1 _ [] (by decide),
   (infer_activity_level_spec sampleParseDate 8640000).2.2.1 _ [] 8640000 (by decide)
     (by decide),
   (infer_activity_level_spec sampleParseDate 8640000).2.2.2.1 _ [] (8640000 - 50 * 86400)
     (by decide) (by decide) (by decide),
   (infer_activity_level_spec sampleParseDate 8640000).2.2.2.2 _ [] 0 (by decide) (by decide)⟩

/-- A sample `TechnicalSignals` value. -/
def sampleSignals : TechnicalSignals :=
  ⟨[], [], .other, .prototype, "low", []⟩

/-- C2, counterexample: at a failing backend call the OpenAI wrapper's
result differs from the mock engine's bundle (the texts differ). -/
theorem openai_fallback_ne_mock_bundle :
    OpenAIReasoningEngine.reason (fun _ _ => .error ()) (fun _ => none) sampleSignals "" ≠
      MockReasoningEngine.reason sampleSignals "" := by
  decide

/-- C2 (amended): when the backend call fails (network error, timeout —
`Except.error`) or the response does not parse as JSON, `reason` raises
nothing and returns the engine's own fixed fallback bundle
(`_fallback_insights`) — which is not the bundle the mock engine returns. -/
theorem openai_reason_failure_fallback
    (backend : TechnicalSignals → String → Except Unit String)
    (jsonLoads : String → Option ParsedInsightData)
    (signals : TechnicalSignals) (content : String)
    (hfail : (∃ e, backend signals content = .error e) ∨
      (∃ r, backend signals content = .ok r ∧ jsonLoads (extractJsonStr r) = none)) :
    OpenAIReasoningEngine.reason backend jsonLoads signals content =
      OpenAIReasoningEngine.fallback_insights ∧
    OpenAIReasoningEngine.reason backend jsonLoads signals content ≠
      MockReasoningEngine.reason signals content := by
  have hfb : OpenAIReasoningEngine.reason backend jsonLoads signals content =
      OpenAIReasoningEngine.fallback_insights := by
    rcases hfail with ⟨e, he⟩ | ⟨r, hr, hp⟩
    · unfold OpenAIReasoningEngine.reason
      rw [he]
    · unfold OpenAIReasoningEngine.reason
      rw [hr]
      show OpenAIReasoningEngine.parseResponseWith jsonLoads r =
        OpenAIReasoningEngine.fallback_insights
      unfold OpenAIReasoningEngine.parseResponseWith
      rw [hp]
  refine ⟨hfb, ?_⟩
  have hmock : MockReasoningEngine.reason signals content =
      MockReasoningEngine.reason sampleSignals "" := rfl
  rw [hfb, hmock]
  decide

theorem openai_reason_failure_fallback_witness :
    OpenAIReasoningEngine.reason (fun _ _ => .error ()) (fun _ => none) sampleSignals "x" =
      OpenAIReasoningEngine.fallback_insights ∧
    OpenAIReasoningEngine.reason (fun _ _ => .error ()) (fun _ => none) sampleSignals "x" ≠
      MockReasoningEngine.reason sampleSignals "x" :=
  openai_reason_failure_fallback _ _ sampleSignals "x" (Or.inl ⟨(), rfl⟩)

/-- Total number of characters in a list of content parts. -/
def sumLen (l : List String) : Nat :=
  (l.map String.length).sum

theorem selectParts_sumLen_le (cs : List String) :
    ∀ total maxLen : Nat, total ≤ maxLen →
      sumLen (selectParts cs total maxLen) ≤ maxLen - total := by
  induction cs with
  | nil =>
    intro total maxLen h
    simp [selectParts, sumLen]
  | cons c rest ih =>
    intro total maxLen h
    by_cases hc : total + c.length > maxLen
    · simp only [selectParts, if_pos hc, sumLen, List.map_cons, List.map_nil,
        List.sum_cons, List.sum_nil, pyTake_length]
      omega
    · simp only [selectParts, if_neg hc, sumLen, List.map_cons, List.sum_cons]
      have := ih (total + c.length) maxLen (by omega)
      simp only [sumLen] at this
      omega

theorem selectParts_count_le (cs : List String) :
    ∀ total maxLen : Nat, (selectParts cs total maxLen).length ≤ cs.length := by
  induction cs with
  | nil =>
    intro total maxLen
    simp [selectParts]
  | cons c rest ih =>
    intro total maxLen
    by_cases hc : total + c.length > maxLen
    · simp [selectParts, if_pos hc]
    · simp only [selectParts, if_neg hc, List.length_cons]
      exact Nat.succ_le_succ (ih _ _)

theorem joinSep_length (sep : String) :
    ∀ l : List String, (joinSep sep l).length = sumLen l + sep.length * (l.length - 1) := by
  intro l
  induction l with
  | nil => simp [joinSep, sumLen]
  | cons s rest ih =>
    cases rest with
    | nil => simp [joinSep, sumLen]
    | cons t rest2 =>
      simp only [joinSep, String.length_append, sumLen, List.map_cons, List.sum_cons,
        List.length_cons, Nat.add_sub_cancel, Nat.mul_succ] at ih ⊢
      omega

/-- C8 (amended): the characters drawn from file contents never exceed the
budget `max_length`; the returned string can exceed the budget only by the
two-character separators inserted between consecutive parts, so its length
is at most `max_length + 2 * (number of files - 1)`. -/
theorem select_content_length_bound (snapshot : RepositorySnapshot) (max_length : Nat) :
    sumLen (selectParts (snapshot.files.map (·.content)) 0 max_length) ≤ max_length ∧
    (select_content snapshot max_length).length ≤
      max_length + 2 * (snapshot.files.length - 1) := by
  have hsum := selectParts_sumLen_le (snapshot.files.map (·.content)) 0 max_length
    (Nat.zero_le _)
  have hcount := selectParts_count_le (snapshot.files.map (·.content)) 0 max_length
  refine ⟨by omega, ?_⟩
  unfold select_content
  rw [joinSep_length]
  have hsep : ("\n\n" : String).length = 2 := rfl
  rw [hsep]
  have hflen : (snapshot.files.map (·.content)).length = snapshot.files.length :=
    List.length_map _ _
  omega

/-- A file whose content is 5000 copies of 'a'. -/
def halfBudgetFile1 : FileContent :=
  ⟨⟨["a.txt"]⟩, String.mk (List.replicate 5000 'a'), 7⟩

/-- A file whose content is 5000 copies of 'b'. -/
def halfBudgetFile2 : FileContent :=
  ⟨⟨["b.txt"]⟩, String.mk (List.replicate 5000 'b'), 7⟩

/-- A snapshot holding the two half-budget files. -/
def halfBudgetSnapshot : RepositorySnapshot :=
  ⟨⟨["r"]⟩, [halfBudgetFile1, halfBudgetFile2], [], false, none, false⟩

/-- C8, counterexample: with the default budget 10000 and two files of 5000
characters each, the selector's output is 10002 characters long — the
"\n\n" separator pushes it past the budget. -/
theorem select_content_exceeds_budget :
    10000 < (select_content halfBudgetSnapshot 10000).length := by
  have h1 : (String.mk (List.replicate 5000 'a')).length = 5000 := by
    show (List.replicate 5000 'a').length = 5000
    rw [List.length_replicate]
  have h2 : (String.mk (List.replicate 5000 'b')).length = 5000 := by
    show (List.replicate 5000 'b').length = 5000
    rw [List.length_replicate]
  have hmap : halfBudgetSnapshot.files.map (·.content) =
      [String.mk (List.replicate 5000 'a'), String.mk (List.replicate 5000 'b')] := rfl
  unfold select_content
  rw [hmap]
  rw [selectParts, if_neg (by omega), selectParts, if_neg (by rw [h1, h2]; omega),
    selectParts]
  rw [joinSep_length]
  have hsep : ("\n\n" : String).length = 2 := rfl
  simp only [sumLen, List.map_cons, List.map_nil, List.sum_cons, List.sum_nil,
    List.length_cons, List.length_nil, h1, h2, hsep]
  norm_num

/-- C6 (amended): on a version-controlled checkout `get_recent_commits`
returns at most 10 commits, a prefix of the newest-first history; when the
root is not a version-controlled checkout (`InvalidGitRepositoryError`) it
returns the empty sequence and the ingested snapshot's `is_git_repo` flag
is false. (A read error is not caught; see the counterexample.) -/
theorem get_recent_commits_spec (git : Except GitError (List GitCommit))
    (root : PyPath) (entries : List FsEntry) :
    (∀ log, git = .ok log →
      get_recent_commits git 10 = .ok (log.take 10) ∧
      (log.take 10).length ≤ 10 ∧ (log.take 10) <+: log) ∧
    (git = .error .invalidRepo →
      get_recent_commits git 10 = .ok [] ∧
      ingest_local_repository root entries git =
        .ok ⟨root, collect_files entries, [], false, none, false⟩) := by
  constructor
  · intro log hlog
    subst hlog
    refine ⟨rfl, ?_, List.take_prefix 10 log⟩
    rw [List.length_take]
    omega
  · intro hgit
    subst hgit
    exact ⟨rfl, rfl⟩

theorem get_recent_commits_spec_witness :
    (get_recent_commits (.ok [⟨"h1", "m", "a", "d"⟩]) 10 = .ok [⟨"h1", "m", "a", "d"⟩] ∧
      ([(⟨"h1", "m", "a", "d"⟩ : GitCommit)].take 10).length ≤ 10 ∧
      ([(⟨"h1", "m", "a", "d"⟩ : GitCommit)].take 10) <+: [⟨"h1", "m", "a", "d"⟩]) ∧
    (get_recent_commits (.error .invalidRepo) 10 = .ok [] ∧
      ingest_local_repository ⟨["r"]⟩ [] (.error .invalidRepo) =
        .ok ⟨⟨["r"]⟩, [], [], false, none, false⟩) :=
  ⟨((get_recent_commits_spec (.ok [⟨"h1", "m", "a", "d"⟩]) ⟨["r"]⟩ []).1
      [⟨"h1", "m", "a", "d"⟩] rfl),
   ((get_recent_commits_spec (.error .invalidRepo) ⟨["r"]⟩ []).2 rfl)⟩

/-- C6, counterexample: a read error while reading history (any exception
other than `InvalidGitRepositoryError`, e.g. `GitCommandError`) is not
caught: `get_recent_commits` does not return an empty sequence, and
ingestion propagates the exception instead of producing a snapshot. -/
theorem get_recent_commits_read_error_propagates :
    get_recent_commits (.error .readError) 10 ≠ .ok [] ∧
    ingest_local_repository ⟨["r"]⟩ [] (.error .readError) = .error .readError := by
  refine ⟨?_, rfl⟩
  intro h
  simp [get_recent_commits] at h

/-- C5: in a directory holding exactly a README file and one source-code
file (both regular, readable, outside ignored directories, the source file
not itself README-named), `collect_files` returns exactly those two files,
highest priority first, with the README strictly above the source file —
whichever order the directory walk yields them in. -/
theorem collect_files_readme_and_source
    (e1 e2 : FsEntry) (entries : List FsEntry)
    (horder : entries = [e1, e2] ∨ entries = [e2, e1])
    (h1file : e1.isFile = true) (h1read : e1.readable = true)
    (h1ign : should_ignore_path e1.path = false)
    (h1readme : HIGH_PRIORITY_FILES.contains (strToLower e1.path.name) = true)
    (h2file : e2.isFile = true) (h2read : e2.readable = true)
    (h2ign : should_ignore_path e2.path = false)
    (h2src : SOURCE_SUFFIXES.contains (strToLower e2.path.suffix) = true)
    (h2notreadme : HIGH_PRIORITY_FILES.contains (strToLower e2.path.name) = false) :
    collect_files entries =
      [⟨e1.path, e1.content, calculate_priority e1.path⟩,
       ⟨e2.path, e2.content, calculate_priority e2.path⟩] ∧
    calculate_priority e2.path < calculate_priority e1.path := by
  have hp1 : calculate_priority e1.path = 10 := by
    unfold calculate_priority
    rw [if_pos h1readme]
  have hp2 : calculate_priority e2.path = 8 ∨ calculate_priority e2.path = 5 := by
    unfold calculate_priority
    rw [if_neg (by rw [h2notreadme]; simp)]
    by_cases hcfg : CONFIG_FILES.contains (strToLower e2.path.name) = true
    · left
      rw [if_pos hcfg]
    · right
      rw [if_neg hcfg, if_pos h2src]
  have hlt : calculate_priority e2.path < calculate_priority e1.path := by
    rcases hp2 with h | h <;> rw [h, hp1] <;> norm_num
  refine ⟨?_, hlt⟩
  rcases horder with rfl | rfl <;>
    rcases hp2 with h | h <;>
      simp [collect_files, h1file, h1read, h1ign, h2file, h2read, h2ign,
        List.insertionSort, List.orderedInsert, hp1, h]

/-- A README directory entry for the walker witness. -/
def readmeEntry : FsEntry :=
  ⟨⟨["README.md"]⟩, true, true, "# Proj"⟩

/-- A source-file directory entry for the walker witness. -/
def sourceEntry : FsEntry :=
  ⟨⟨["main.py"]⟩, true, true, "x = 1"⟩

theorem collect_files_readme_and_source_witness :
    collect_files [sourceEntry, readmeEntry] =
      [⟨readmeEntry.path, readmeEntry.content, calculate_priority readmeEntry.path⟩,
       ⟨sourceEntry.path, sourceEntry.content, calculate_priority sourceEntry.path⟩] ∧
    calculate_priority sourceEntry.path < calculate_priority readmeEntry.path :=
  collect_files_readme_and_source readmeEntry sourceEntry [sourceEntry, readmeEntry]
    (Or.inr rfl) rfl rfl (by decide) (by decide) rfl rfl (by decide) (by decide)
    (by decide)

/-- C10 (amended): `merge_language_data` returns at most 10 names; the
names are pairwise distinct whenever the per-language dict keys and the
local list are; when no GitHub language reaches the 5% share (or there is
no byte data) the result is the local list capped at 10; otherwise it is
the significant GitHub languages (scanned in byte-count-descending order)
followed by the local languages not among them, capped at 10 — the cap can
cut both significant GitHub languages and local ones. -/
theorem merge_language_data_spec (local_languages : List String) (m : GitHubMetrics)
    (hkeys : (m.language_stats.languages.map Prod.fst).Nodup)
    (hlocal : local_languages.Nodup) :
    (merge_language_data local_languages m).length ≤ 10 ∧
    (merge_language_data local_languages m).Nodup ∧
    (github_languages m = [] →
      merge_language_data local_languages m = local_languages.take 10) ∧
    (github_languages m ≠ [] →
      merge_language_data local_languages m =
        (github_languages m ++ local_languages.filter
          (fun lang => !((github_languages m).contains lang))).take 10) ∧
    (sortedLangsDesc m.language_stats.languages).Pairwise
      (fun a b => b.2 ≤ a.2) := by
  haveI hTot : IsTotal (String × Nat) (fun a b => b.2 ≤ a.2) :=
    ⟨fun a b => Nat.le_total b.2 a.2⟩
  haveI hTrans : IsTrans (String × Nat) (fun a b => b.2 ≤ a.2) :=
    ⟨fun _ _ _ h1 h2 => Nat.le_trans h2 h1⟩
  have hsorted : (sortedLangsDesc m.language_stats.languages).Pairwise
      (fun a b => b.2 ≤ a.2) :=
    List.sorted_insertionSort _ _
  have hperm : List.Perm (sortedLangsDesc m.language_stats.languages)
      m.language_stats.languages :=
    List.perm_insertionSort _ _
  have hGnodup : (github_languages m).Nodup := by
    unfold github_languages
    by_cases he : m.language_stats.languages.isEmpty = true
    · rw [if_pos he]
      exact List.nodup_nil
    · rw [if_neg he]
      have h1 : ((sortedLangsDesc m.language_stats.languages).map Prod.fst).Nodup :=
        (hperm.map Prod.fst).nodup_iff.mpr hkeys
      exact List.Nodup.sublist (List.Sublist.map Prod.fst (List.filter_sublist _)) h1
  have hcombined : (github_languages m ++ local_languages.filter
      (fun lang => !((github_languages m).contains lang))).Nodup := by
    refine List.Nodup.append hGnodup (hlocal.filter _) ?_
    intro a ha1 ha2
    have hmem := List.mem_filter.mp ha2
    have hcont : (github_languages m).contains a = true :=
      List.elem_eq_true_of_mem ha1
    rw [hcont] at hmem
    simp at hmem
  refine ⟨?_, ?_, ?_, ?_, hsorted⟩
  · by_cases hGe : (github_languages m).isEmpty = true
    · simp only [merge_language_data, if_pos hGe, List.length_take]
      omega
    · simp only [merge_language_data, if_neg hGe, List.length_take]
      omega
  · by_cases hGe : (github_languages m).isEmpty = true
    · simp only [merge_language_data, if_pos hGe]
      exact List.Nodup.sublist (List.take_sublist _ _) hlocal
    · simp only [merge_language_data, if_neg hGe]
      exact List.Nodup.sublist (List.take_sublist _ _) hcombined
  · intro hGnil
    have hGe : (github_languages m).isEmpty = true := by rw [hGnil]; rfl
    simp only [merge_language_data, if_pos hGe]
  · intro hGne
    have hGe : ¬ ((github_languages m).isEmpty = true) :=
      fun h => hGne (List.isEmpty_iff.mp h)
    simp only [merge_language_data, if_neg hGe]

/-- Metrics with no per-language byte data. -/
def emptyStatsMetrics : GitHubMetrics :=
  ⟨⟨"r", "o/r", none, 0, 0, 0, none, [], 0, 0, 0, 0, "main", none,
    false, false, false, false, false⟩, [], ⟨[], 0⟩, "", ""⟩

/-- C10, counterexample: with no GitHub byte data and the local list
`["X", "X"]`, `merge_language_data` returns `["X", "X"]` — a result with a
duplicate, refuting the unconditional no-duplicates part of the claim. -/
theorem merge_language_data_duplicates :
    merge_language_data ["X", "X"] emptyStatsMetrics = ["X", "X"] ∧
    ¬ (merge_language_data ["X", "X"] emptyStatsMetrics).Nodup := by
  refine ⟨rfl, ?_⟩
  decide

/-- Metrics whose byte histogram is Go 60, Python 40 of 100 total. -/
def twoLangMetrics : GitHubMetrics :=
  ⟨⟨"r", "o/r", none, 0, 0, 0, none, [], 0, 0, 0, 0, "main", none,
    false, false, false, false, false⟩, [],
    ⟨[("Go", 60), ("Python", 40)], 100⟩, "", ""⟩

theorem merge_language_data_spec_witness :
    (merge_language_data ["Python", "Lua"] twoLangMetrics).length ≤ 10 ∧
    (merge_language_data ["Python", "Lua"] twoLangMetrics).Nodup :=
  ⟨(merge_language_data_spec ["Python", "Lua"] twoLangMetrics (by decide) (by decide)).1,
   (merge_language_data_spec ["Python", "Lua"] twoLangMetrics (by decide) (by decide)).2.1⟩

theorem yamlStrList_roundtrip (l : List String) :
    yamlStrList (.list (l.map Yaml.str)) = some l := by
  simp only [yamlStrList]
  induction l with
  | nil => rfl
  | cons s rest ih =>
    simp only [List.map_cons, List.mapM_cons, yamlStr, ih]
    rfl

theorem projectType_roundtrip (pt : ProjectType) :
    ProjectType.ofValue pt.value = some pt := by
  cases pt <;> rfl

theorem projectStatus_roundtrip (ps : ProjectStatus) :
    ProjectStatus.ofValue ps.value = some ps := by
  cases ps <;> rfl

/-- C1: saving any MCP document with `save_mcp` and reloading it with
`load_mcp` succeeds and yields the document back, field for field — the
tech-stack list, the enum-valued project type and status, the key features,
the nullable risks field and the metadata version and timestamp included. -/
theorem mcp_save_load_roundtrip (m : MCP) : load_mcp (save_mcp m) = some m := by
  obtain ⟨pn, ol, pr, so, vp, ts, pt, st, kf, tu, cf, fp, rg, ⟨mv, mg⟩⟩ := m
  cases rg with
  | none =>
    simp [save_mcp, load_mcp, List.lookup, yamlStr, yamlStrList_roundtrip,
      projectType_roundtrip, projectStatus_roundtrip, yamlTime, yamlOptStr,
      loadMetadata]
  | some r =>
    simp [save_mcp, load_mcp, List.lookup, yamlStr, yamlStrList_roundtrip,
      projectType_roundtrip, projectStatus_roundtrip, yamlTime, yamlOptStr,
      loadMetadata]
